import Mathlib

/-!
usbscale: a verification development.

A shallow embedding of `src/include/usbscale.h` and `src/src/usbscale.cpp`
(class `USBScale`), followed by theorems about the embedded functions.

Modelling conventions.

* `unsigned char` / `uint8_t` values are `Fin 256`; a scale report
  (`unsigned char data[WEIGH_REPORT_SIZE]`) is a function `Fin 6 → Fin 256`.
* `int8_t expt = dat[3]` is the two's-complement reading of the byte.
* `double` values are modelled by the exact rational they stand for.  The
  mantissa has at most five decimal digits and the program prints the weight
  with `%g` (six significant digits), so the printed text denotes
  `mantissa * 10 ^ expt`.
* `int` fields hold integers of the 32-bit range.  C++ leaves signed overflow
  undefined; the one `int` operation that can overflow, `weigh_count--`, is
  modelled by the two's-complement wrap-around of the compiled program
  (`wrap_int`).
* Reads from an array are `Option`-valued: `none` marks a read outside the
  array, which C++ leaves undefined.
* libusb is an external collaborator: the outcome of each libusb call is an
  input of the embedded function.
-/

/-- The data members of class `USBScale` that `get_measurement` and
`print_scale_data` read or write, together with the function-local
`static uint8_t lastStatus` of `print_scale_data`. -/
structure USBScale where
  weigh_count : Int
  scale_result : Int
  lastStatus : Fin 256
  deriving DecidableEq

namespace USBScale

/-! ## Constants of `usbscale.h` -/

/-- The constant `NSCALES`: length of the `scales` table. -/
def NSCALES : Nat := 9

/-- The constant `WEIGH_COUNT`: number of the weighing result to show. -/
def WEIGH_COUNT : Int := 2

/-- The constant `WEIGH_REPORT_SIZE`. -/
def WEIGH_REPORT_SIZE : Nat := 6

/-- The table `UNITS[13]` of unit abbreviations, indexed by unit code. -/
def UNITS : List String :=
  [ "units", "mg", "g", "kg", "cd", "taels", "gr", "dwt", "tonnes", "tons",
    "ozt", "oz", "lbs" ]

/-- The table `scales[NSCALES][2]` of supported (vendor, product) pairs. -/
def scales : List (Nat × Nat) :=
  [ (0x1446, 0x6a73), (0x7b7c, 0x0100), (0x2474, 0x0550), (0x2474, 0x3550),
    (0x0eb8, 0xf000), (0x6096, 0x0158), (0x0b67, 0x555e), (0x0922, 0x8004),
    (0x0922, 0x8003) ]

/-- The libusb constant `LIBUSB_ENDPOINT_IN`. -/
def LIBUSB_ENDPOINT_IN : Nat := 0x80

/-- The libusb constant `LIBUSB_RECIPIENT_INTERFACE`. -/
def LIBUSB_RECIPIENT_INTERFACE : Nat := 0x01

/-! ## `print_scale_data` -/

/-- A scale report: the six bytes of `unsigned char data[WEIGH_REPORT_SIZE]`. -/
abbrev Frame := Fin 6 → Fin 256

/-- What `print_scale_data` writes. -/
inductive Output where
  /-- A fixed message written by `fprintf(stderr, ...)`. -/
  | err (msg : String)
  /-- The message `fprintf(stderr, "Unknown status code: %d\n", status)`. -/
  | errUnknown (status : Nat)
  /-- The line `printf("%g %s\n", weight, UNITS[unit])`; `label` is `none` when
  `unit` lies outside the table. -/
  | weight (value : ℚ) (label : Option String)
  deriving DecidableEq

/-- Conversion `uint8_t → int8_t` performed by `int8_t expt = dat[3]`. -/
def toInt8 (b : Fin 256) : Int :=
  if b.val < 128 then (b.val : Int) else (b.val : Int) - 256

/-- The function `le16toh` on a little-endian host: the value as `uint16_t`. -/
def le16toh (x : Nat) : Nat := x % 2 ^ 16

/-- The result of one `print_scale_data` call: the returned `int`, the value of
the function-local `static uint8_t lastStatus` afterwards, and what was
written. -/
structure Printed where
  ret : Int
  lastStatus : Fin 256
  out : List Output
  deriving DecidableEq

/-- The function `USBScale::print_scale_data`, with the static `lastStatus`
passed in and out. -/
def print_scale_data (dat : Frame) (lastStatus : Fin 256) : Printed :=
  let report := dat 0
  let status := dat 1
  let unit := dat 2
  let expt := toInt8 (dat 3)
  let weight : ℚ := (le16toh ((dat 5).val <<< 8 ||| (dat 4).val) : ℚ)
  let weight := weight * (10 : ℚ) ^ expt
  if report.val ≠ 0x03 ∧ report.val ≠ 0x04 then
    ⟨-1, lastStatus, [.err "Error reading scale data\n"]⟩
  else
    match status.val with
    | 0x01 => ⟨-1, lastStatus, [.err "Scale reports Fault\n"]⟩
    | 0x02 =>
      ⟨1, status, if status ≠ lastStatus then [.err "Scale is zero'd...\n"] else []⟩
    | 0x03 =>
      ⟨1, status, if status ≠ lastStatus then [.err "Weighing...\n"] else []⟩
    | 0x04 => ⟨0, lastStatus, [.weight weight (UNITS.get? unit.val)]⟩
    | 0x05 =>
      ⟨1, status, if status ≠ lastStatus then [.err "Scale reports Under Zero\n"] else []⟩
    | 0x06 =>
      ⟨1, status, if status ≠ lastStatus then [.err "Scale reports Over Weight\n"] else []⟩
    | 0x07 =>
      ⟨1, status,
        if status ≠ lastStatus then [.err "Scale reports Calibration Needed\n"] else []⟩
    | 0x08 =>
      ⟨1, status,
        if status ≠ lastStatus then [.err "Scale reports Re-zeroing Needed!\n"] else []⟩
    | _ =>
      ⟨-1, lastStatus, if status ≠ lastStatus then [.errUnknown status.val] else []⟩

/-! ## `get_measurement` -/

/-- The constructor `USBScale::USBScale()`.  The static `lastStatus` is not
touched by it: it is `0` at program start and otherwise whatever the last
`print_scale_data` call left. -/
def new (lastStatus : Fin 256) : USBScale :=
  { weigh_count := WEIGH_COUNT - 1, scale_result := -1, lastStatus := lastStatus }

/-- The value an `int` holds after an arithmetic result `x`: the 32-bit
two's-complement wrap-around, the identity on `INT_MIN .. INT_MAX`. -/
def wrap_int (x : Int) : Int := (x + 2147483648) % 4294967296 - 2147483648

/-- The outcome of one `libusb_interrupt_transfer` call: the return code `r`
and the contents of the buffer `data` after the call. -/
structure Transfer where
  r : Int
  data : Frame

/-- The result of one `get_measurement` call: the returned value, the object
afterwards, and the result of the `print_scale_data` call when one was made. -/
structure Measured where
  ret : Int
  self : USBScale
  printed : Option Printed

/-- The function `USBScale::get_measurement`; `t` is what the interrupt
transfer of this call returned. -/
def get_measurement (self : USBScale) (t : Transfer) : Measured :=
  if t.r = 0 then
    if self.weigh_count < 1 then
      let p := print_scale_data t.data self.lastStatus
      let self := { self with scale_result := p.ret, lastStatus := p.lastStatus }
      if self.scale_result ≠ 1 then
        ⟨-1, self, some p⟩
      else
        let self := { self with weigh_count := wrap_int (self.weigh_count - 1) }
        ⟨self.scale_result, self, some p⟩
    else
      let self := { self with weigh_count := wrap_int (self.weigh_count - 1) }
      ⟨self.scale_result, self, none⟩
  else
    let self := { self with scale_result := -1 }
    ⟨self.scale_result, self, none⟩

/-- Successive `get_measurement` calls on one object, one per transfer outcome;
the object after the last call. -/
def run (self : USBScale) : List Transfer → USBScale
  | [] => self
  | t :: ts => run (get_measurement self t).self ts

/-! ## `find_scale` -/

/-- The fields of `struct libusb_device_descriptor` that `find_scale` compares. -/
structure libusb_device_descriptor where
  idVendor : Nat
  idProduct : Nat
  deriving DecidableEq

/-- The field of `struct libusb_endpoint_descriptor` that is read. -/
structure libusb_endpoint_descriptor where
  bEndpointAddress : Fin 256
  deriving DecidableEq

/-- An alternate setting: `endpoint` is the array of `bNumEndpoints` endpoint
descriptors. -/
structure libusb_interface_descriptor where
  endpoint : List libusb_endpoint_descriptor
  deriving DecidableEq

/-- An interface: `altsetting` is the array of `num_altsetting` settings. -/
structure libusb_interface where
  altsetting : List libusb_interface_descriptor
  deriving DecidableEq

/-- A configuration: `interface` is the array of `bNumInterfaces` interfaces. -/
structure libusb_config_descriptor where
  interface : List libusb_interface
  deriving DecidableEq

/-- A `libusb_device*`: its address, what `libusb_get_device_descriptor`
yields for it (`none` when the call returns `r < 0`) and what
`libusb_get_config_descriptor(dev, 0, &config)` yields (`none` when the call
returns `r ≠ 0`). -/
structure libusb_device where
  addr : Nat
  descriptor : Option libusb_device_descriptor
  config : Option libusb_config_descriptor
  deriving DecidableEq

/-- What a call of `find_scale` does: it returns a `libusb_device*` (`none` is
NULL), or it runs into undefined behaviour. -/
inductive Found where
  | ret (dev : Option libusb_device)
  | undefined
  deriving DecidableEq

/-- The function `USBScale::find_scale` on a NULL-terminated device list, as
compiled with `DEBUG` defined (`usbscale.h`).  `libusb_open dev` is the code
returned by `libusb_open(dev, &hand)` (0 on success) and
`libusb_get_string_descriptor_ascii dev` the code returned by the read of the
manufacturer string through the opened handle (negative on failure).  The
debugging block checks neither: when the open fails, `hand` is passed on
uninitialised, and when the string read fails, the uninitialised buffer
`string` is printed with `%s`. -/
def find_scale (libusb_open : libusb_device → Int)
    (libusb_get_string_descriptor_ascii : libusb_device → Int) :
    List libusb_device → Found
  | [] => .ret none
  | dev :: devs =>
    match dev.descriptor with
    | none => .ret none
    | some desc =>
      if (List.range NSCALES).any (fun i =>
          desc.idVendor == (scales.getD i (0, 0)).1 &&
          desc.idProduct == (scales.getD i (0, 0)).2) then
        if libusb_open dev ≠ 0 then
          .undefined
        else if libusb_get_string_descriptor_ascii dev < 0 then
          .undefined
        else
          .ret (some dev)
      else
        find_scale libusb_open libusb_get_string_descriptor_ascii devs

/-! ## `get_first_endpoint_address` -/

/-- The function `USBScale::get_first_endpoint_address`.  The result is `none`
when `config->interface[0].altsetting[0].endpoint[0]` reads outside one of the
three arrays. -/
def get_first_endpoint_address (dev : libusb_device) : Option (Fin 256) :=
  let endpoint_address : Fin 256 :=
    Fin.ofNat (LIBUSB_ENDPOINT_IN ||| LIBUSB_RECIPIENT_INTERFACE)
  match dev.config with
  | some config =>
    (config.interface.get? 0).bind fun i =>
      (i.altsetting.get? 0).bind fun a =>
        (a.endpoint.get? 0).map fun e => e.bEndpointAddress
  | none => some endpoint_address


/-! ## Helper lemmas -/

/-- The exponent byte read as `int8_t` is the two's-complement value. -/
theorem toInt8_spec (b : Fin 256) :
    -128 ≤ toInt8 b ∧ toInt8 b < 128 ∧ (toInt8 b - (b.val : Int)) % 256 = 0 := by
  unfold toInt8
  have hb := b.isLt
  split <;> omega

/-- Two bytes combined by `dat[5] << 8 | dat[4]` and passed through `le16toh`
give the little-endian 16-bit value. -/
theorem le16toh_bytes (lo hi : Fin 256) :
    le16toh (hi.val <<< 8 ||| lo.val) = lo.val + 256 * hi.val := by
  have hlo := lo.isLt
  have hhi := hi.isLt
  have h : hi.val <<< 8 ||| lo.val = 2 ^ 8 * hi.val + lo.val := by
    rw [Nat.shiftLeft_eq, Nat.mul_comm]
    exact (Nat.mul_add_lt_is_or hlo hi.val).symm
  rw [h, le16toh]
  omega

/-- The weight line written for a frame with status `0x04`. -/
theorem print_scale_data_status4 (dat : Frame) (lastStatus : Fin 256)
    (hreport : (dat 0).val = 0x03 ∨ (dat 0).val = 0x04) (hstatus : (dat 1).val = 0x04) :
    print_scale_data dat lastStatus =
      ⟨0, lastStatus,
        [.weight ((((dat 4).val + 256 * (dat 5).val : Nat) : ℚ) * (10 : ℚ) ^ toInt8 (dat 3))
          (UNITS.get? (dat 2).val)]⟩ := by
  have hr : ¬ ((dat 0).val ≠ 0x03 ∧ (dat 0).val ≠ 0x04) := by omega
  simp only [print_scale_data, hr, hstatus, if_false, le16toh_bytes]

/-- Every index up to 12 lies inside the `UNITS` table. -/
theorem UNITS_get?_isSome (u : Nat) (h : u ≤ 12) : ∃ label, UNITS.get? u = some label := by
  have hl : u < UNITS.length := by simp [UNITS]; omega
  exact ⟨UNITS.get ⟨u, hl⟩, List.get?_eq_get hl⟩

/-- A call whose transfer failed changes nothing but `scale_result`. -/
theorem get_measurement_failed (self : USBScale) (t : Transfer) (h : t.r ≠ 0) :
    get_measurement self t = ⟨-1, { self with scale_result := -1 }, none⟩ := by
  simp [get_measurement, h]

/-- A successful transfer decoded to the code 1. -/
theorem get_measurement_decode_again (self : USBScale) (t : Transfer) (h : t.r = 0)
    (hw : self.weigh_count < 1) (hp : (print_scale_data t.data self.lastStatus).ret = 1) :
    get_measurement self t =
      ⟨1, ⟨wrap_int (self.weigh_count - 1), 1,
          (print_scale_data t.data self.lastStatus).lastStatus⟩,
        some (print_scale_data t.data self.lastStatus)⟩ := by
  simp [get_measurement, h, hw, hp]

/-- A successful transfer decoded to a code other than 1. -/
theorem get_measurement_decode_stop (self : USBScale) (t : Transfer) (h : t.r = 0)
    (hw : self.weigh_count < 1) (hp : (print_scale_data t.data self.lastStatus).ret ≠ 1) :
    get_measurement self t =
      ⟨-1, ⟨self.weigh_count, (print_scale_data t.data self.lastStatus).ret,
          (print_scale_data t.data self.lastStatus).lastStatus⟩,
        some (print_scale_data t.data self.lastStatus)⟩ := by
  simp [get_measurement, h, hw, hp]

/-- A successful transfer while `weigh_count < 1` is passed to
`print_scale_data`. -/
theorem get_measurement_printed (self : USBScale) (t : Transfer) (h : t.r = 0)
    (hw : self.weigh_count < 1) :
    (get_measurement self t).printed =
      some (print_scale_data t.data self.lastStatus) := by
  by_cases hp : (print_scale_data t.data self.lastStatus).ret = 1
  · rw [get_measurement_decode_again self t h hw hp]
  · rw [get_measurement_decode_stop self t h hw hp]

/-- The inner loop of `find_scale` finds a match exactly for the pairs of the
`scales` table. -/
theorem scales_loop_iff (desc : libusb_device_descriptor) :
    (List.range NSCALES).any (fun i =>
        desc.idVendor == (scales.getD i (0, 0)).1 &&
        desc.idProduct == (scales.getD i (0, 0)).2) = true ↔
      (desc.idVendor, desc.idProduct) ∈ scales := by
  simp [NSCALES, scales, List.range_succ, Prod.ext_iff]

/-- The scan of `find_scale` passes over devices that have a readable
descriptor outside the `scales` table. -/
theorem find_scale_skip (libusb_open libusb_get_string_descriptor_ascii : libusb_device → Int)
    (pre rest : List libusb_device)
    (hpre : ∀ x ∈ pre, ∃ dx, x.descriptor = some dx ∧ (dx.idVendor, dx.idProduct) ∉ scales) :
    find_scale libusb_open libusb_get_string_descriptor_ascii (pre ++ rest) =
      find_scale libusb_open libusb_get_string_descriptor_ascii rest := by
  induction pre with
  | nil => rfl
  | cons x xs ih =>
    obtain ⟨dx, hdx, hno⟩ := hpre x (List.mem_cons_self x xs)
    have hloop := (scales_loop_iff dx).not.mpr hno
    have hxs := ih (fun y hy => hpre y (List.mem_cons_of_mem x hy))
    simp only [List.cons_append, find_scale, hdx]
    rw [if_neg hloop]
    exact hxs

/-- The first listed scale is returned when the two unchecked calls of the
debugging block succeed on it. -/
theorem find_scale_found (libusb_open libusb_get_string_descriptor_ascii : libusb_device → Int)
    (pre post : List libusb_device) (d : libusb_device) (desc : libusb_device_descriptor)
    (hpre : ∀ x ∈ pre, ∃ dx, x.descriptor = some dx ∧ (dx.idVendor, dx.idProduct) ∉ scales)
    (hd : d.descriptor = some desc) (hin : (desc.idVendor, desc.idProduct) ∈ scales)
    (hopen : libusb_open d = 0) (hstr : 0 ≤ libusb_get_string_descriptor_ascii d) :
    find_scale libusb_open libusb_get_string_descriptor_ascii (pre ++ d :: post) =
      .ret (some d) := by
  rw [find_scale_skip _ _ pre (d :: post) hpre]
  simp only [find_scale, hd]
  rw [if_pos ((scales_loop_iff desc).mpr hin)]
  simp [hopen, not_lt.mpr hstr]

/-- The first listed scale makes the call undefined when one of the two
unchecked calls of the debugging block fails on it. -/
theorem find_scale_undefined
    (libusb_open libusb_get_string_descriptor_ascii : libusb_device → Int)
    (pre post : List libusb_device) (d : libusb_device) (desc : libusb_device_descriptor)
    (hpre : ∀ x ∈ pre, ∃ dx, x.descriptor = some dx ∧ (dx.idVendor, dx.idProduct) ∉ scales)
    (hd : d.descriptor = some desc) (hin : (desc.idVendor, desc.idProduct) ∈ scales)
    (hfail : libusb_open d ≠ 0 ∨ libusb_get_string_descriptor_ascii d < 0) :
    find_scale libusb_open libusb_get_string_descriptor_ascii (pre ++ d :: post) =
      .undefined := by
  rw [find_scale_skip _ _ pre (d :: post) hpre]
  simp only [find_scale, hd]
  rw [if_pos ((scales_loop_iff desc).mpr hin)]
  by_cases ho : libusb_open d = 0
  · have hs : libusb_get_string_descriptor_ascii d < 0 := hfail.resolve_left (not_not.mpr ho)
    simp [ho, hs]
  · simp [ho]

/-- NULL is returned when the scan ends, or reaches an unreadable descriptor,
before any listed scale. -/
theorem find_scale_null (libusb_open libusb_get_string_descriptor_ascii : libusb_device → Int)
    (pre post : List libusb_device) (d : libusb_device)
    (hpre : ∀ x ∈ pre, ∃ dx, x.descriptor = some dx ∧ (dx.idVendor, dx.idProduct) ∉ scales)
    (hd : d.descriptor = none) :
    find_scale libusb_open libusb_get_string_descriptor_ascii pre = .ret none ∧
    find_scale libusb_open libusb_get_string_descriptor_ascii (pre ++ d :: post) =
      .ret none := by
  constructor
  · have h := find_scale_skip libusb_open libusb_get_string_descriptor_ascii pre [] hpre
    rw [List.append_nil] at h
    rw [h]
    rfl
  · rw [find_scale_skip _ _ pre (d :: post) hpre]
    simp only [find_scale, hd]

/-! ## Theorems about `print_scale_data` -/

/-- C1: for every frame whose report byte is 0x03 or 0x04, whose status byte is
0x04 and whose unit byte is at most 12, `print_scale_data` returns 0 and writes
the weight `(dat[4] + 256*dat[5]) * 10^e` with the label `UNITS[unit]`, where
`e` is `dat[3]` read as a signed 8-bit integer; the frame
`[0x04,0x04,0x02,0xFF,0xF4,0x01]` gives weight 50 and unit "g". -/
theorem print_scale_data_weight (dat : Frame) (lastStatus : Fin 256)
    (hreport : (dat 0).val = 0x03 ∨ (dat 0).val = 0x04) (hstatus : (dat 1).val = 0x04)
    (hunit : (dat 2).val ≤ 12) :
    (∃ (label : String) (e : Int),
        UNITS.get? (dat 2).val = some label ∧
        -128 ≤ e ∧ e < 128 ∧ (e - ((dat 3).val : Int)) % 256 = 0 ∧
        print_scale_data dat lastStatus =
          ⟨0, lastStatus,
            [.weight ((((dat 4).val + 256 * (dat 5).val : Nat) : ℚ) * (10 : ℚ) ^ e)
              (some label)]⟩) ∧
    print_scale_data ![0x04, 0x04, 0x02, 0xFF, 0xF4, 0x01] lastStatus =
      ⟨0, lastStatus, [.weight 50 (some "g")]⟩ := by
  constructor
  · obtain ⟨label, hl⟩ := UNITS_get?_isSome (dat 2).val hunit
    obtain ⟨h1, h2, h3⟩ := toInt8_spec (dat 3)
    refine ⟨label, toInt8 (dat 3), hl, h1, h2, h3, ?_⟩
    rw [print_scale_data_status4 dat lastStatus hreport hstatus, hl]
  · rw [print_scale_data_status4 _ lastStatus (by decide) (by decide)]
    have e : toInt8 ((![0x04, 0x04, 0x02, 0xFF, 0xF4, 0x01] : Frame) 3) = -1 := by decide
    have u : UNITS.get? ((![0x04, 0x04, 0x02, 0xFF, 0xF4, 0x01] : Frame) 2).val = some "g" := by
      decide
    have m : ((![0x04, 0x04, 0x02, 0xFF, 0xF4, 0x01] : Frame) 4).val +
        256 * ((![0x04, 0x04, 0x02, 0xFF, 0xF4, 0x01] : Frame) 5).val = 500 := by decide
    rw [e, u, m]
    norm_num

/-- C1 at the frame `[0x03,0x04,0x0C,0x02,0x07,0x00]`: 7 * 10^2 lbs. -/
theorem print_scale_data_weight_witness :
    (∃ (label : String) (e : Int),
        UNITS.get? ((![0x03, 0x04, 0x0C, 0x02, 0x07, 0x00] : Frame) 2).val = some label ∧
        -128 ≤ e ∧ e < 128 ∧
        (e - (((![0x03, 0x04, 0x0C, 0x02, 0x07, 0x00] : Frame) 3).val : Int)) % 256 = 0 ∧
        print_scale_data ![0x03, 0x04, 0x0C, 0x02, 0x07, 0x00] 0 =
          ⟨0, 0,
            [.weight
              (((((![0x03, 0x04, 0x0C, 0x02, 0x07, 0x00] : Frame) 4).val +
                256 * ((![0x03, 0x04, 0x0C, 0x02, 0x07, 0x00] : Frame) 5).val : Nat) : ℚ) *
                  (10 : ℚ) ^ e)
              (some label)]⟩) ∧
    print_scale_data ![0x04, 0x04, 0x02, 0xFF, 0xF4, 0x01] 0 =
      ⟨0, 0, [.weight 50 (some "g")]⟩ :=
  print_scale_data_weight ![0x03, 0x04, 0x0C, 0x02, 0x07, 0x00] 0
    (by decide) (by decide) (by decide)

/-- C2: at the frame `[0x04,0x04,0x0D,0x00,0x01,0x00]` (unit code 13)
`print_scale_data` returns 0, not -1, and the label it prints is read from
`UNITS[13]`, outside the 13-entry table. -/
theorem print_scale_data_unit_out_of_range :
    (print_scale_data ![0x04, 0x04, 0x0D, 0x00, 0x01, 0x00] 0).ret = 0 ∧
    (print_scale_data ![0x04, 0x04, 0x0D, 0x00, 0x01, 0x00] 0).ret ≠ -1 ∧
    UNITS.length = 13 ∧
    (print_scale_data ![0x04, 0x04, 0x0D, 0x00, 0x01, 0x00] 0).out = [.weight 1 none] := by
  refine ⟨by decide, by decide, by decide, ?_⟩
  rw [print_scale_data_status4 _ 0 (by decide) (by decide)]
  have e : toInt8 ((![0x04, 0x04, 0x0D, 0x00, 0x01, 0x00] : Frame) 3) = 0 := by decide
  have u : UNITS.get? ((![0x04, 0x04, 0x0D, 0x00, 0x01, 0x00] : Frame) 2).val = none := by
    decide
  have m : ((![0x04, 0x04, 0x0D, 0x00, 0x01, 0x00] : Frame) 4).val +
      256 * ((![0x04, 0x04, 0x0D, 0x00, 0x01, 0x00] : Frame) 5).val = 1 := by decide
  simp only [e, u, m]
  norm_num

/-- C6: for every frame and every prior `lastStatus`, `print_scale_data`
returns -1 exactly when the report byte is neither 0x03 nor 0x04, or the
status byte is 0x01, or the status byte is outside 0x01..0x08; the returned
code is the same for every prior `lastStatus`. -/
theorem print_scale_data_fault_iff (dat : Frame) (lastStatus lastStatus2 : Fin 256) :
    ((print_scale_data dat lastStatus).ret = -1 ↔
      (((dat 0).val ≠ 0x03 ∧ (dat 0).val ≠ 0x04) ∨ (dat 1).val = 0x01 ∨
        (dat 1).val < 0x01 ∨ 0x08 < (dat 1).val)) ∧
    (print_scale_data dat lastStatus).ret = (print_scale_data dat lastStatus2).ret := by
  by_cases hr : (dat 0).val ≠ 0x03 ∧ (dat 0).val ≠ 0x04
  · simp [print_scale_data, hr]
  · have hcases : (dat 1).val = 1 ∨ (dat 1).val = 2 ∨ (dat 1).val = 3 ∨ (dat 1).val = 4 ∨
        (dat 1).val = 5 ∨ (dat 1).val = 6 ∨ (dat 1).val = 7 ∨ (dat 1).val = 8 ∨
        ((dat 1).val < 1 ∨ 8 < (dat 1).val) := by omega
    rcases hcases with h | h | h | h | h | h | h | h | h
    · simp [print_scale_data, hr, h]
    · simp [print_scale_data, hr, h]
    · simp [print_scale_data, hr, h]
    · simp [print_scale_data, hr, h]
    · simp [print_scale_data, hr, h]
    · simp [print_scale_data, hr, h]
    · simp [print_scale_data, hr, h]
    · simp [print_scale_data, hr, h]
    · have hret : ∀ ls, (print_scale_data dat ls).ret = -1 := by
        intro ls
        simp only [print_scale_data, hr, if_false]
        split <;> first | rfl | omega
      exact ⟨⟨fun _ => Or.inr (Or.inr h), fun _ => hret lastStatus⟩,
        (hret lastStatus).trans (hret lastStatus2).symm⟩

/-! ## Theorems about `get_measurement` -/

/-- C9: when the transfer fails (`r ≠ 0`), `get_measurement` returns -1, makes
no `print_scale_data` call, and leaves `weigh_count` and `lastStatus`
unchanged. -/
theorem get_measurement_transfer_error (self : USBScale) (t : Transfer) (h : t.r ≠ 0) :
    (get_measurement self t).ret = -1 ∧
    (get_measurement self t).printed = none ∧
    (get_measurement self t).self.weigh_count = self.weigh_count ∧
    (get_measurement self t).self.lastStatus = self.lastStatus := by
  rw [get_measurement_failed self t h]
  exact ⟨rfl, rfl, rfl, rfl⟩

/-- C9 at a transfer that timed out (`LIBUSB_ERROR_TIMEOUT = -7`) on an object
that had already decoded a frame. -/
theorem get_measurement_transfer_error_witness :
    (get_measurement ⟨0, 1, 3⟩ ⟨-7, ![0x03, 0x04, 0x02, 0x00, 0x05, 0x00]⟩).ret = -1 ∧
    (get_measurement ⟨0, 1, 3⟩ ⟨-7, ![0x03, 0x04, 0x02, 0x00, 0x05, 0x00]⟩).printed = none ∧
    (get_measurement ⟨0, 1, 3⟩ ⟨-7, ![0x03, 0x04, 0x02, 0x00, 0x05, 0x00]⟩).self.weigh_count =
      (⟨0, 1, 3⟩ : USBScale).weigh_count ∧
    (get_measurement ⟨0, 1, 3⟩ ⟨-7, ![0x03, 0x04, 0x02, 0x00, 0x05, 0x00]⟩).self.lastStatus =
      (⟨0, 1, 3⟩ : USBScale).lastStatus :=
  get_measurement_transfer_error ⟨0, 1, 3⟩ ⟨-7, ![0x03, 0x04, 0x02, 0x00, 0x05, 0x00]⟩
    (by decide)

/-- C3: on a fresh object with three successful transfers, garbage, then
status 0x03, then `[0x04,0x04,0x02,0xFF,0xF4,0x01]`, the first frame is not
decoded, the second call returns 1, and the third call decodes and prints
`50 g` but returns -1, the value it also returns for a frame reporting a
fault. -/
theorem get_measurement_weight_returns_failure :
    (get_measurement (new 0) ⟨0, ![0xAA, 0xBB, 0xCC, 0xDD, 0xEE, 0xFF]⟩).printed = none ∧
    (get_measurement (run (new 0) [⟨0, ![0xAA, 0xBB, 0xCC, 0xDD, 0xEE, 0xFF]⟩])
      ⟨0, ![0x03, 0x03, 0x02, 0x00, 0x00, 0x00]⟩).ret = 1 ∧
    (get_measurement
      (run (new 0) [⟨0, ![0xAA, 0xBB, 0xCC, 0xDD, 0xEE, 0xFF]⟩,
        ⟨0, ![0x03, 0x03, 0x02, 0x00, 0x00, 0x00]⟩])
      ⟨0, ![0x04, 0x04, 0x02, 0xFF, 0xF4, 0x01]⟩).printed =
        some ⟨0, 3, [.weight 50 (some "g")]⟩ ∧
    (get_measurement
      (run (new 0) [⟨0, ![0xAA, 0xBB, 0xCC, 0xDD, 0xEE, 0xFF]⟩,
        ⟨0, ![0x03, 0x03, 0x02, 0x00, 0x00, 0x00]⟩])
      ⟨0, ![0x04, 0x04, 0x02, 0xFF, 0xF4, 0x01]⟩).ret = -1 ∧
    (get_measurement
      (run (new 0) [⟨0, ![0xAA, 0xBB, 0xCC, 0xDD, 0xEE, 0xFF]⟩,
        ⟨0, ![0x03, 0x03, 0x02, 0x00, 0x00, 0x00]⟩])
      ⟨0, ![0x04, 0x01, 0x02, 0xFF, 0xF4, 0x01]⟩).ret = -1 := by
  have hs : run (new 0) [⟨0, ![0xAA, 0xBB, 0xCC, 0xDD, 0xEE, 0xFF]⟩,
      ⟨0, ![0x03, 0x03, 0x02, 0x00, 0x00, 0x00]⟩] = ⟨-1, 1, 3⟩ := by decide
  refine ⟨by decide, by decide, ?_, by decide, by decide⟩
  rw [hs, get_measurement_printed _ _ rfl (by decide)]
  have hp := (print_scale_data_status4 ![0x04, 0x04, 0x02, 0xFF, 0xF4, 0x01] 3
    (by decide) (by decide))
  have e : toInt8 ((![0x04, 0x04, 0x02, 0xFF, 0xF4, 0x01] : Frame) 3) = -1 := by decide
  have u : UNITS.get? ((![0x04, 0x04, 0x02, 0xFF, 0xF4, 0x01] : Frame) 2).val = some "g" := by
    decide
  have m : ((![0x04, 0x04, 0x02, 0xFF, 0xF4, 0x01] : Frame) 4).val +
      256 * ((![0x04, 0x04, 0x02, 0xFF, 0xF4, 0x01] : Frame) 5).val = 500 := by decide
  rw [e, u, m] at hp
  simp only [hp]
  norm_num

/-- C4: on the device list `[(0x1234,0x5678), (0x0922,0x8003)]`, with all
descriptors readable, `find_scale` does not return the second device when
`libusb_open` fails on it (`LIBUSB_ERROR_ACCESS = -3`) or when the read of its
manufacturer string fails (`LIBUSB_ERROR_INVALID_PARAM = -2`): the debugging
block then uses `hand`, respectively `string`, uninitialised.  It returns the
second device when both calls succeed. -/
theorem find_scale_debug_block_unchecked :
    find_scale (fun _ => -3) (fun _ => 18)
      [⟨1, some ⟨0x1234, 0x5678⟩, none⟩, ⟨2, some ⟨0x0922, 0x8003⟩, none⟩] = .undefined ∧
    find_scale (fun _ => 0) (fun _ => -2)
      [⟨1, some ⟨0x1234, 0x5678⟩, none⟩, ⟨2, some ⟨0x0922, 0x8003⟩, none⟩] = .undefined ∧
    find_scale (fun _ => 0) (fun _ => 18)
      [⟨1, some ⟨0x1234, 0x5678⟩, none⟩, ⟨2, some ⟨0x0922, 0x8003⟩, none⟩] =
        .ret (some ⟨2, some ⟨0x0922, 0x8003⟩, none⟩) := by
  refine ⟨by decide, by decide, by decide⟩

/-! ## Theorems about `get_first_endpoint_address` -/

/-- C8 as stated fails: a device whose configuration descriptor 0 is read
successfully and whose first alternate setting has no endpoint makes
`endpoint[0]` a read outside the array. -/
theorem get_first_endpoint_address_no_endpoint :
    (∃ config, (⟨1, some ⟨0x0922, 0x8003⟩, some ⟨[⟨[⟨[]⟩]⟩]⟩⟩ : libusb_device).config =
      some config) ∧
    get_first_endpoint_address ⟨1, some ⟨0x0922, 0x8003⟩, some ⟨[⟨[⟨[]⟩]⟩]⟩⟩ = none :=
  ⟨⟨_, rfl⟩, by decide⟩

/-- C8 amended: when configuration descriptor 0 is read and has a first
interface whose first alternate setting has a first endpoint,
`get_first_endpoint_address` returns that endpoint's `bEndpointAddress`; when
the descriptor cannot be read it returns
`LIBUSB_ENDPOINT_IN | LIBUSB_RECIPIENT_INTERFACE = 0x81`. -/
theorem get_first_endpoint_address_spec (dev : libusb_device) :
    (∀ config i is a as e es, dev.config = some config → config.interface = i :: is →
      i.altsetting = a :: as → a.endpoint = e :: es →
        get_first_endpoint_address dev = some e.bEndpointAddress) ∧
    (dev.config = none →
      get_first_endpoint_address dev = some 0x81 ∧
      LIBUSB_ENDPOINT_IN ||| LIBUSB_RECIPIENT_INTERFACE = 0x81) := by
  constructor
  · intro config i is a as e es hc hi ha he
    simp [get_first_endpoint_address, hc, hi, ha, he]
  · intro hc
    refine ⟨?_, by decide⟩
    simp only [get_first_endpoint_address, hc]
    rfl

/-- C8 amended, at a scale with one interrupt-IN endpoint 0x82 and at a device
whose configuration descriptor cannot be read. -/
theorem get_first_endpoint_address_spec_witness :
    get_first_endpoint_address ⟨1, some ⟨0x0922, 0x8003⟩, some ⟨[⟨[⟨[⟨0x82⟩]⟩]⟩]⟩⟩ =
      some 0x82 ∧
    get_first_endpoint_address ⟨1, some ⟨0x0922, 0x8003⟩, none⟩ = some 0x81 :=
  ⟨(get_first_endpoint_address_spec
      ⟨1, some ⟨0x0922, 0x8003⟩, some ⟨[⟨[⟨[⟨0x82⟩]⟩]⟩]⟩⟩).1 _ _ _ _ _ _ _ rfl rfl rfl rfl,
    ((get_first_endpoint_address_spec ⟨1, some ⟨0x0922, 0x8003⟩, none⟩).2 rfl).1⟩

end USBScale
